import Mathlib

/-!
Verification of the pytest-mpi plugin (firedrakeproject/pytest-mpi).

This file gives a shallow embedding, in Lean 4, of the logic of the three
source files:

  * `pytest_mpi/parallel_assert.py` — the collective assertion primitive;
  * `pytest_mpi.py`                 — the plugin hooks: marker parsing,
                                      test generation, and the launch /
                                      detection decision at test setup;
  * `mpispawn.py`                   — an auxiliary spawning script (not
                                      needed by the properties below).

Python exceptions are modelled with `Except`; machine integers are `Int`
(Python integers are unbounded, so no wrap-around modelling is needed).
Each definition mirrors one Python function and keeps its name.
-/

namespace PytestMPI

/-- The kinds of exception the embedded code can raise.
`usageError` is `pytest.UsageError` (the spec's `ConfigurationError`);
`keyError` is a Python `KeyError` (failed dict lookup);
`valueError` is a Python `ValueError` (failed tuple unpacking);
`attributeError` is a Python `AttributeError` (attribute of `None`);
`assertionError` is a failed `assert` / raised `AssertionError`. -/
inductive Err where
  | usageError (msg : String)
  | keyError
  | valueError
  | attributeError
  | assertionError (msg : String)
deriving DecidableEq, Repr

/-! ## `pytest_mpi/parallel_assert.py` -/

/-- The value a single rank contributes to the gather:
`result = assertion() if participating else True`
(`parallel_assert.py`, line 39).  `evalResult` is the boolean the rank's
`assertion` callable returns when invoked. -/
def contribution (participating : Bool) (evalResult : Bool) : Bool :=
  if participating then evalResult else true

/-- The list produced by `MPI.COMM_WORLD.allgather(result)`
(`parallel_assert.py`, line 40): every rank observes the same list of all
per-rank contributions, indexed by rank.  A rank is a pair
`(participating, evalResult)`. -/
def all_results (ranks : List (Bool × Bool)) : List Bool :=
  ranks.map fun r => contribution r.1 r.2

/-- `[rank for rank, result in enumerate(all_results) if not result]`
(`parallel_assert.py`, line 44). -/
def failing_ranks (results : List Bool) : List Nat :=
  (results.enum.filter fun p => !p.2).map Prod.fst

/-- Python's `str` of a list of ints, as interpolated into the f-string:
`[1, 2]`. -/
def format_rank_list (l : List Nat) : String :=
  "[" ++ String.intercalate ", " (l.map toString) ++ "]"

/-- The message of the `AssertionError` raised by `parallel_assert`
(`parallel_assert.py`, lines 42-46). -/
def parallel_assert_msg (results : List Bool) (msg : String) : String :=
  "Parallel assertion failed on ranks: " ++ format_rank_list (failing_ranks results)
    ++ "\n" ++ msg

/-- `parallel_assert(assertion, participating=True, msg="")`
(`parallel_assert.py`, lines 6-46), seen from any one rank of the group.
The input is the whole group: rank `i` supplies
`(participating_i, evalResult_i)`.  Since `allgather` hands every rank the
same `all_results` list, the outcome below is the outcome on every rank.
Python's `min` of an empty list raises `ValueError`; on a nonempty list of
booleans it is the iterated binary `min`. -/
def parallel_assert (ranks : List (Bool × Bool)) (msg : String) : Except Err Unit :=
  match all_results ranks with
  | [] => .error .valueError
  | x :: xs =>
      if xs.foldl min x = false then
        .error (.assertionError (parallel_assert_msg (x :: xs) msg))
      else
        .ok ()

/-! ### Lemmas about `parallel_assert` -/

lemma bool_min_eq_and (x y : Bool) : min x y = (x && y) := by
  cases x <;> cases y <;> rfl

lemma foldl_min_eq_false_iff (xs : List Bool) (x : Bool) :
    xs.foldl min x = false ↔ x = false ∨ ∃ b ∈ xs, b = false := by
  induction xs generalizing x with
  | nil => simp
  | cons y ys ih =>
      rw [List.foldl_cons, ih (min x y), bool_min_eq_and]
      cases x <;> cases y <;> simp

lemma mem_failing_ranks_iff (results : List Bool) (i : ℕ) :
    i ∈ failing_ranks results ↔ results[i]? = some false := by
  simp only [failing_ranks, List.mem_map, List.mem_filter,
    List.mem_enum_iff_getElem?]
  constructor
  · rintro ⟨⟨j, b⟩, ⟨hget, hb⟩, rfl⟩
    simp only [Bool.not_eq_true'] at hb
    subst hb
    exact hget
  · intro h
    exact ⟨(i, false), ⟨h, rfl⟩, rfl⟩

lemma failing_ranks_pairwise (results : List Bool) :
    (failing_ranks results).Pairwise (· < ·) := by
  have hsub : List.Sublist (failing_ranks results) (List.map Prod.fst results.enum) :=
    List.Sublist.map _ (List.filter_sublist _)
  rw [List.enum_map_fst] at hsub
  exact (List.pairwise_lt_range results.length).sublist hsub

/-- C1: for every group of N ≥ 1 ranks calling `parallel_assert` at the same
logical point, where each participating rank contributes the result of its
`assertion` callable and each non-participating rank contributes `true`:
if every contributed value is `true` the call returns normally on every
rank, and if any contributed value is `false` every rank raises an
`AssertionError` whose message lists exactly the indices of all ranks that
contributed `false` (each index once, in increasing rank order), followed
by the caller-supplied message. -/
theorem parallel_assert_spec (ranks : List (Bool × Bool)) (msg : String)
    (hne : ranks ≠ []) :
    ((∀ r ∈ ranks, contribution r.1 r.2 = true) → parallel_assert ranks msg = .ok ())
    ∧ ((∃ r ∈ ranks, contribution r.1 r.2 = false) →
        parallel_assert ranks msg =
          .error (.assertionError (parallel_assert_msg (all_results ranks) msg)))
    ∧ (∀ i : ℕ, i ∈ failing_ranks (all_results ranks) ↔
        ∃ r, ranks[i]? = some r ∧ contribution r.1 r.2 = false)
    ∧ (failing_ranks (all_results ranks)).Pairwise (· < ·) := by
  refine ⟨?_, ?_, ?_, failing_ranks_pairwise _⟩
  · intro hall
    obtain ⟨r, rs, rfl⟩ := List.exists_cons_of_ne_nil hne
    have hcond :
        ¬ (List.map (fun r => contribution r.1 r.2) rs).foldl min
            (contribution r.1 r.2) = false := by
      intro hfold
      rcases (foldl_min_eq_false_iff _ _).mp hfold with h | ⟨b, hb, hb0⟩
      · exact absurd (hall r (List.mem_cons_self r rs)) (by simp [h])
      · obtain ⟨r', hr', hcr⟩ := List.mem_map.mp hb
        have ht := hall r' (List.mem_cons_of_mem _ hr')
        rw [hcr, hb0] at ht
        exact Bool.false_ne_true ht
    simp only [parallel_assert, all_results, List.map_cons, if_neg hcond]
  · rintro ⟨r0, hr0, hf0⟩
    obtain ⟨r, rs, rfl⟩ := List.exists_cons_of_ne_nil hne
    have hc :
        (List.map (fun r => contribution r.1 r.2) rs).foldl min
          (contribution r.1 r.2) = false := by
      rw [foldl_min_eq_false_iff]
      rcases List.mem_cons.mp hr0 with h | hmem
      · exact Or.inl (h ▸ hf0)
      · exact Or.inr ⟨_, List.mem_map.mpr ⟨r0, hmem, rfl⟩, hf0⟩
    simp only [parallel_assert, all_results, List.map_cons, if_pos hc]
  · intro i
    rw [mem_failing_ranks_iff]
    simp only [all_results, List.getElem?_map]
    rw [Option.map_eq_some']

/-- Witness for C1: the spec's example, a group of size 3 evaluating
`rank == 0`, raises with message naming failing ranks `[1, 2]`. -/
theorem parallel_assert_spec_witness :
    parallel_assert [(true, true), (true, false), (true, false)] "custom message" =
      .error (.assertionError
        "Parallel assertion failed on ranks: [1, 2]\ncustom message") := by
  have h := (parallel_assert_spec [(true, true), (true, false), (true, false)]
      "custom message" (by decide)).2.1 ⟨(true, false), by simp, rfl⟩
  rw [h]
  rfl

/-! ## `pytest_mpi.py` — marker parsing -/

/-- An argument value of the `parallel` marker: Python distinguishes an
iterable (list/tuple of ints) from a bare integer via
`isinstance(arg, collections.abc.Iterable)`. -/
inductive Val where
  | int (k : ℤ)
  | iter (l : List ℤ)
deriving DecidableEq, Repr

/-- A `pytest.Mark`: its name, positional args and keyword args (a dict,
modelled as an association list). -/
structure Marker where
  name : String
  args : List Val
  kwargs : List (String × Val)
deriving DecidableEq, Repr

/-- `_as_tuple(arg)` (`pytest_mpi.py`, lines 235-236):
`tuple(arg) if isinstance(arg, collections.abc.Iterable) else (arg,)`. -/
def _as_tuple : Val → List ℤ
  | .int k => [k]
  | .iter l => l

/-- `_parse_marker_nprocs(marker)` (`pytest_mpi.py`, lines 213-232).

The branch structure follows the source:
`assert marker.name == "parallel"`, then
`len(args) == 1 and not kwargs` → `_as_tuple(args[0])`;
`len(kwargs) == 1 and not args` → `_as_tuple(kwargs["nprocs"])`
(a sole keyword other than `nprocs` raises `KeyError`);
`not args and not kwargs` → `(3,)`;
otherwise `pytest.UsageError`. -/
def _parse_marker_nprocs (m : Marker) : Except Err (List ℤ) :=
  if m.name = "parallel" then
    match m.args, m.kwargs with
    | [a], [] => .ok (_as_tuple a)
    | [], [kv] => if kv.1 = "nprocs" then .ok (_as_tuple kv.2) else .error .keyError
    | [], [] => .ok [3]
    | _, _ => .error (.usageError "Bad arguments given to parallel marker")
  else
    .error (.assertionError "marker.name == \"parallel\"")

/-- C2: `_parse_marker_nprocs` maps a single integer `k` (positional or as
sole `nprocs` keyword) to `(k,)`, an iterable of integers (positional or
keyword) to the tuple of exactly those integers in input order, and a
marker with no arguments at all to the default `(3,)`, raising no error in
any of these cases. -/
theorem parse_marker_nprocs_spec :
    (∀ k : ℤ, _parse_marker_nprocs ⟨"parallel", [.int k], []⟩ = .ok [k])
    ∧ (∀ k : ℤ, _parse_marker_nprocs ⟨"parallel", [], [("nprocs", .int k)]⟩ = .ok [k])
    ∧ (∀ l : List ℤ, _parse_marker_nprocs ⟨"parallel", [.iter l], []⟩ = .ok l)
    ∧ (∀ l : List ℤ,
        _parse_marker_nprocs ⟨"parallel", [], [("nprocs", .iter l)]⟩ = .ok l)
    ∧ _parse_marker_nprocs ⟨"parallel", [], []⟩ = .ok [3] :=
  ⟨fun _ => rfl, fun _ => rfl, fun _ => rfl, fun _ => rfl, rfl⟩

/-- C3: a `parallel` marker supplying both a positional argument and a
keyword argument simultaneously makes `_parse_marker_nprocs` fail with
`pytest.UsageError`, never returning a tuple. -/
theorem parse_marker_nprocs_both_args_error (m : Marker)
    (hname : m.name = "parallel") (hargs : m.args ≠ []) (hkw : m.kwargs ≠ []) :
    _parse_marker_nprocs m =
      .error (.usageError "Bad arguments given to parallel marker") := by
  obtain ⟨a, as, ha⟩ := List.exists_cons_of_ne_nil hargs
  obtain ⟨kv, kvs, hk⟩ := List.exists_cons_of_ne_nil hkw
  obtain ⟨nm, args, kwargs⟩ := m
  simp only at hname ha hk
  subst hname ha hk
  cases as <;> cases kvs <;> rfl

/-- Witness for C3: a marker with positional `2` and keyword `nprocs=3`. -/
theorem parse_marker_nprocs_both_args_error_witness :
    _parse_marker_nprocs ⟨"parallel", [.int 2], [("nprocs", .int 3)]⟩ =
      .error (.usageError "Bad arguments given to parallel marker") :=
  parse_marker_nprocs_both_args_error ⟨"parallel", [.int 2], [("nprocs", .int 3)]⟩
    rfl (by decide) (by decide)

/-- C10: `_parse_marker_nprocs` performs no positivity validation: every
integer `k`, including `0` and negative values, resolves successfully to
`(k,)`; the data-model invariant "every size ≥ 1" is not enforced here. -/
theorem parse_marker_nprocs_no_positivity_check :
    (∀ k : ℤ, _parse_marker_nprocs ⟨"parallel", [.int k], []⟩ = .ok [k])
    ∧ _parse_marker_nprocs ⟨"parallel", [.int 0], []⟩ = .ok [0]
    ∧ _parse_marker_nprocs ⟨"parallel", [Val.int (-1)], []⟩ = .ok [-1]
    ∧ _parse_marker_nprocs ⟨"parallel", [], [("nprocs", Val.int (-5))]⟩ = .ok [-5] :=
  ⟨fun _ => rfl, rfl, rfl, rfl⟩

/-! ## `pytest_mpi.py` — test items, generation, and the setup state machine -/

/-- `CHILD_PROCESS_FLAG` (`pytest_mpi.py`, line 18): the environment
variable marking a spawned child process. -/
def CHILD_PROCESS_FLAG : String := "_PYTEST_MPI_CHILD_PROCESS"

/-- A collected test item, restricted to the attributes the plugin reads:
`item.get_closest_marker("parallel")` (`marker`), the parametrised
`item.callspec.params["_nprocs"]` when present (`nprocsParam`),
`item.fspath` and `item.name`. -/
structure Item where
  marker : Option Marker
  nprocsParam : Option ℤ
  fspath : String
  name : String
deriving DecidableEq, Repr

/-- `_extract_nprocs_for_single_test(item)` (`pytest_mpi.py`, lines
193-210).  If the item was parametrised (multiple sizes requested) the
`_nprocs` callspec param is returned; otherwise the marker is parsed and
its sole value unpacked by `nprocs, = ...` — a tuple of length ≠ 1 makes
that unpacking raise `ValueError`.  `item.get_closest_marker` returning
`None` would make `marker.name` raise `AttributeError`. -/
def _extract_nprocs_for_single_test (item : Item) : Except Err ℤ :=
  match item.nprocsParam with
  | some n => .ok n
  | none =>
      match item.marker with
      | none => .error .attributeError
      | some marker =>
          match _parse_marker_nprocs marker with
          | .ok [n] => .ok n
          | .ok _ => .error .valueError
          | .error e => .error e

/-- The `pytest.UsageError` message raised by `pytest_generate_tests` when
`nprocs > max_nprocs` (`pytest_mpi.py`, lines 66-69). -/
def max_nprocs_msg (n mx : ℤ) : String :=
  "Requested a parallel test with too many ranks (" ++ toString n
    ++ " > PYTEST_MPI_MAX_NPROCS=" ++ toString mx ++ ")"

/-- `pytest_generate_tests(metafunc)` (`pytest_mpi.py`, lines 43-75).
Input: the function's marker list and the optional `PYTEST_MPI_MAX_NPROCS`
environment limit.  Output: `none` when no parametrization is performed,
`some nprocss` when the test is split into one identity per size (in input
order, labelled `nprocs=<N>`).  `marker, = markers` raises `ValueError`
when several `parallel` markers are attached; the limit check raises
`pytest.UsageError` at the first size exceeding the limit, before any
parametrization happens. -/
def pytest_generate_tests (funcMarkers : List Marker) (env_max : Option ℤ) :
    Except Err (Option (List ℤ)) :=
  match funcMarkers.filter (fun m => decide (m.name = "parallel")) with
  | [] => .ok none
  | [marker] =>
      match _parse_marker_nprocs marker with
      | .error e => .error e
      | .ok nprocss =>
          match env_max with
          | some mx =>
              match nprocss.find? (fun n => decide (mx < n)) with
              | some n => .error (.usageError (max_nprocs_msg n mx))
              | none => .ok (if 1 < nprocss.length then some nprocss else none)
          | none => .ok (if 1 < nprocss.length then some nprocss else none)
  | _ => .error .valueError

/-- `f"{item.fspath}::{item.name}"` (`pytest_mpi.py`, line 174): the single
resolved test identity passed to both pytest invocations. -/
def test_identity (fspath nm : String) : String := fspath ++ "::" ++ nm

/-- `pytest_args` (`pytest_mpi.py`, line 174). -/
def pytest_args (fspath nm : String) : List String :=
  ["--runxfail", "-s", "-q", test_identity fspath nm]

/-- `quieter_pytest_args` (`pytest_mpi.py`, lines 176-179). -/
def quieter_pytest_args (fspath nm : String) : List String :=
  pytest_args fspath nm ++
    ["--tb=no", "--no-summary", "--no-header", "--disable-warnings",
     "--show-capture=no"]

/-- `cmd` (`pytest_mpi.py`, lines 181-185): the `mpiexec` command built by
`_set_parallel_callback`, with one block of 1 process and a second block of
`nprocs - 1` processes separated by `:`. -/
def spawn_cmd (nprocs : ℤ) (fspath nm : String) : List String :=
  ["mpiexec", "-n", "1", "-genv", CHILD_PROCESS_FLAG, "1", "python", "-m",
   "pytest"]
    ++ pytest_args fspath nm
    ++ [":", "-n", toString (nprocs - 1), "python", "-m", "pytest"]
    ++ quieter_pytest_args fspath nm

/-- The decision taken by `pytest_runtest_setup` when it does not raise:
either leave the test body to run in place, or replace `item.obj` with a
callback that runs the given `mpiexec` command. -/
inductive SetupDecision where
  | runInPlace
  | spawn (cmd : List String)
deriving DecidableEq, Repr

/-- `_set_parallel_callback(item)` (`pytest_mpi.py`, lines 156-190).
The `assert isinstance(nprocs, numbers.Integral)` always holds in the
model (`nprocs : ℤ`); if `nprocs == 1` the function does nothing (the test
runs in place), otherwise the item's callable becomes a subprocess call of
`spawn_cmd`. -/
def _set_parallel_callback (item : Item) : Except Err SetupDecision :=
  match _extract_nprocs_for_single_test item with
  | .error e => .error e
  | .ok n =>
      if n = 1 then .ok .runInPlace
      else .ok (.spawn (spawn_cmd n item.fspath item.name))

/-- The `pytest.UsageError` message for a size mismatch under an outer
`mpiexec` (`pytest_mpi.py`, lines 120-123). -/
def mismatch_msg : String :=
  "Attempting to run parallel tests inside an mpiexec call where the requested and provided process counts do not match"

/-- The `pytest.UsageError` message for a serial test under an outer
`mpiexec` (`pytest_mpi.py`, lines 127-130). -/
def serial_msg : String :=
  "Serial tests should not be run by multiple processes, consider adding a parallel marker to the test"

/-- `pytest_runtest_setup(item)` (`pytest_mpi.py`, lines 101-130),
parametrised by the ambient state it reads: `_plugin_in_use`,
`MPI.COMM_WORLD.size` (`groupSize`) and the presence of
`CHILD_PROCESS_FLAG` in the environment (`isChild`).  The branch order is
the source's: group size 1 is tested first (with its
`assert not _is_parallel_child_process()`), then the child flag, then the
outer-`mpiexec` size check. -/
def pytest_runtest_setup (pluginInUse : Bool) (groupSize : ℕ) (isChild : Bool)
    (item : Item) : Except Err SetupDecision :=
  if pluginInUse = false then .ok .runInPlace
  else if item.marker.isSome then
    if groupSize = 1 then
      if isChild then .error (.assertionError "not _is_parallel_child_process()")
      else _set_parallel_callback item
    else if isChild then .ok .runInPlace
    else
      match _extract_nprocs_for_single_test item with
      | .error e => .error e
      | .ok n =>
          if n ≠ (groupSize : ℤ) then .error (.usageError mismatch_msg)
          else .ok .runInPlace
  else
    if groupSize ≠ 1 then .error (.usageError serial_msg)
    else .ok .runInPlace

/-! ## Theorems about extraction, generation and the setup decision -/

/-- C8: `_extract_nprocs_for_single_test` returns the parametrised
`_nprocs` value when the instance carries one; returns the sole size when
the instance is unspecialised and the requirement has exactly one size;
and fails with `ValueError` (an internal tuple-unpacking failure, not a
`pytest.UsageError`) when an unspecialised instance's requirement resolves
to zero sizes or to more than one size. -/
theorem extract_nprocs_spec :
    (∀ (item : Item) (n : ℤ), item.nprocsParam = some n →
       _extract_nprocs_for_single_test item = .ok n)
    ∧ (∀ (item : Item) (m : Marker) (n : ℤ), item.nprocsParam = none →
       item.marker = some m → _parse_marker_nprocs m = .ok [n] →
       _extract_nprocs_for_single_test item = .ok n)
    ∧ (∀ (item : Item) (m : Marker) (l : List ℤ), item.nprocsParam = none →
       item.marker = some m → _parse_marker_nprocs m = .ok l → l.length ≠ 1 →
       _extract_nprocs_for_single_test item = .error .valueError)
    ∧ (∀ s : String, Err.valueError ≠ Err.usageError s) := by
  refine ⟨?_, ?_, ?_, fun s h => Err.noConfusion h⟩
  · intro item n h
    simp [_extract_nprocs_for_single_test, h]
  · intro item m n h1 h2 h3
    simp [_extract_nprocs_for_single_test, h1, h2, h3]
  · intro item m l h1 h2 h3 hlen
    rcases l with _ | ⟨a, _ | ⟨b, t⟩⟩
    · simp [_extract_nprocs_for_single_test, h1, h2, h3]
    · exact absurd rfl hlen
    · simp [_extract_nprocs_for_single_test, h1, h2, h3]

/-- Witness for C8: a parametrised instance, an unspecialised single-size
requirement, and an unspecialised two-size requirement. -/
theorem extract_nprocs_spec_witness :
    _extract_nprocs_for_single_test
      ⟨some ⟨"parallel", [.iter [2, 3]], []⟩, some 2, "f.py", "t"⟩ = .ok 2
    ∧ _extract_nprocs_for_single_test
      ⟨some ⟨"parallel", [.int 4], []⟩, none, "f.py", "t"⟩ = .ok 4
    ∧ _extract_nprocs_for_single_test
      ⟨some ⟨"parallel", [.iter [2, 3]], []⟩, none, "f.py", "t"⟩ =
        .error .valueError :=
  ⟨extract_nprocs_spec.1 _ 2 rfl,
   extract_nprocs_spec.2.1 _ ⟨"parallel", [.int 4], []⟩ 4 rfl rfl rfl,
   extract_nprocs_spec.2.2.1 _ ⟨"parallel", [.iter [2, 3]], []⟩ [2, 3]
     rfl rfl rfl (by decide)⟩

/-- C7: when the `PYTEST_MPI_MAX_NPROCS` limit is set, any resolved
requirement containing a size strictly greater than the limit makes
`pytest_generate_tests` raise `pytest.UsageError` (so no parametrised test
identity is produced and no process launch happens); requirements with all
sizes within the limit behave exactly as with no limit set. -/
theorem generate_tests_max_nprocs (fm : List Marker) (m : Marker) (mx : ℤ)
    (l : List ℤ)
    (hm : fm.filter (fun m => decide (m.name = "parallel")) = [m])
    (hp : _parse_marker_nprocs m = .ok l) :
    ((∃ n ∈ l, mx < n) → ∃ n0 ∈ l, mx < n0 ∧
       pytest_generate_tests fm (some mx) =
         .error (.usageError (max_nprocs_msg n0 mx)))
    ∧ ((∀ n ∈ l, n ≤ mx) →
       pytest_generate_tests fm (some mx) = pytest_generate_tests fm none) := by
  constructor
  · intro hex
    have hs : (l.find? (fun n => decide (mx < n))).isSome := by
      rw [List.find?_isSome]
      obtain ⟨n, hn, hlt⟩ := hex
      exact ⟨n, hn, by simpa using hlt⟩
    obtain ⟨n0, hfind⟩ := Option.isSome_iff_exists.mp hs
    refine ⟨n0, List.mem_of_find?_eq_some hfind,
      by simpa using List.find?_some hfind, ?_⟩
    simp only [pytest_generate_tests, hm, hp, hfind]
  · intro hall
    have hnone : l.find? (fun n => decide (mx < n)) = none := by
      rw [List.find?_eq_none]
      intro n hn
      simpa using not_lt.mpr (hall n hn)
    simp only [pytest_generate_tests, hm, hp, hnone]

/-- Witness for C7: requirement `[2, 4]` fails generation under limit 3
(before any identity is materialised) and is unaffected under limit 5. -/
theorem generate_tests_max_nprocs_witness :
    pytest_generate_tests [⟨"parallel", [.iter [2, 4]], []⟩] (some 3) =
      .error (.usageError (max_nprocs_msg 4 3))
    ∧ pytest_generate_tests [⟨"parallel", [.iter [2, 4]], []⟩] (some 5) =
      pytest_generate_tests [⟨"parallel", [.iter [2, 4]], []⟩] none := by
  constructor
  · obtain ⟨n0, hmem, hlt, heq⟩ :=
      (generate_tests_max_nprocs [⟨"parallel", [.iter [2, 4]], []⟩]
        ⟨"parallel", [.iter [2, 4]], []⟩ 3 [2, 4] rfl rfl).1
        ⟨4, by decide, by decide⟩
    simp only [List.mem_cons, List.not_mem_nil, or_false] at hmem
    rcases hmem with rfl | rfl
    · exact absurd hlt (by decide)
    · exact heq
  · exact (generate_tests_max_nprocs [⟨"parallel", [.iter [2, 4]], []⟩]
      ⟨"parallel", [.iter [2, 4]], []⟩ 5 [2, 4] rfl rfl).2 (by decide)

/-- Counterexample to C4 as stated: in state `ROOT_GROUP` (group size 3,
not a spawned child), a parallel test resolving to `nprocs = 1` is NOT run
in place — setup rejects it with `pytest.UsageError`, because the code
reaches the outer-`mpiexec` branch and `1 != MPI.COMM_WORLD.size`. -/
theorem nprocs_one_root_group_counterexample :
    pytest_runtest_setup true 3 false
      ⟨some ⟨"parallel", [.int 1], []⟩, none, "test_a.py", "test_f"⟩ =
      .error (.usageError mismatch_msg) := rfl

/-- C4 (amended): a parallel test resolving to `nprocs = 1` runs in place,
with no spawn, in state `ROOT_SINGLE` (group size 1, not a child) and in
state `SPAWNED_CHILD` with group size > 1; but in state `ROOT_GROUP`
(group size > 1, not a child) setup rejects it with `pytest.UsageError`
since `nprocs` differs from the group size. -/
theorem nprocs_one_amended (groupSize : ℕ) (isChild : Bool) (item : Item)
    (hmark : item.marker.isSome = true)
    (hext : _extract_nprocs_for_single_test item = .ok 1) :
    (groupSize = 1 → isChild = false →
       pytest_runtest_setup true groupSize isChild item = .ok .runInPlace)
    ∧ (1 < groupSize → isChild = true →
       pytest_runtest_setup true groupSize isChild item = .ok .runInPlace)
    ∧ (1 < groupSize → isChild = false →
       pytest_runtest_setup true groupSize isChild item =
         .error (.usageError mismatch_msg)) := by
  refine ⟨?_, ?_, ?_⟩
  · rintro rfl rfl
    simp [pytest_runtest_setup, hmark, _set_parallel_callback, hext]
  · rintro hgs rfl
    have h1 : groupSize ≠ 1 := by omega
    simp [pytest_runtest_setup, hmark, h1]
  · rintro hgs rfl
    have h1 : groupSize ≠ 1 := by omega
    have h2 : (1 : ℤ) ≠ (groupSize : ℤ) := by omega
    simp [pytest_runtest_setup, hmark, h1, hext, h2]

/-- Witness for C4 (amended): `nprocs = 1` runs in place at group size 1
(not child) and at group size 3 (child). -/
theorem nprocs_one_amended_witness :
    pytest_runtest_setup true 1 false
      ⟨some ⟨"parallel", [.int 1], []⟩, none, "test_a.py", "test_f"⟩ =
      .ok .runInPlace
    ∧ pytest_runtest_setup true 3 true
      ⟨some ⟨"parallel", [.int 1], []⟩, none, "test_a.py", "test_f"⟩ =
      .ok .runInPlace :=
  ⟨(nprocs_one_amended 1 false
      ⟨some ⟨"parallel", [.int 1], []⟩, none, "test_a.py", "test_f"⟩
      rfl rfl).1 rfl rfl,
   (nprocs_one_amended 3 true
      ⟨some ⟨"parallel", [.int 1], []⟩, none, "test_a.py", "test_f"⟩
      rfl rfl).2.1 (by decide) rfl⟩

/-- Counterexample to C5 as stated: a spawned child with group size 1
(the claim quantifies over every `groupSize ≥ 1`) does NOT yield
`RunInPlace` — the `MPI.COMM_WORLD.size == 1` branch is taken first and
its `assert not _is_parallel_child_process()` fails, an
internal-invariant failure. -/
theorem spawned_child_counterexample :
    pytest_runtest_setup true 1 true
      ⟨some ⟨"parallel", [.int 2], []⟩, none, "test_a.py", "test_f"⟩ =
      .error (.assertionError "not _is_parallel_child_process()") := rfl

/-- C5 (amended): a spawned child with group size > 1 always yields
`RunInPlace` for a parallel-marked test, regardless of the required
`nprocs`: no spawn, no rejection, no internal-invariant failure. -/
theorem spawned_child_run_in_place (groupSize : ℕ) (item : Item)
    (hgs : 1 < groupSize) (hmark : item.marker.isSome = true) :
    pytest_runtest_setup true groupSize true item = .ok .runInPlace := by
  have h1 : groupSize ≠ 1 := by omega
  simp [pytest_runtest_setup, hmark, h1]

/-- Witness for C5 (amended): a spawned child of group size 4 running a
test marked `nprocs = 2` runs in place. -/
theorem spawned_child_run_in_place_witness :
    pytest_runtest_setup true 4 true
      ⟨some ⟨"parallel", [.int 2], []⟩, none, "test_a.py", "test_f"⟩ =
      .ok .runInPlace :=
  spawned_child_run_in_place 4
    ⟨some ⟨"parallel", [.int 2], []⟩, none, "test_a.py", "test_f"⟩
    (by decide) rfl

/-- C6: a non-child process in a pre-launched group of size > 1
(`ROOT_GROUP`) rejects a parallel test requiring `nprocs > 1` with
`pytest.UsageError` unless the group size equals `nprocs` exactly (no
silent downsizing), and runs it in place when they are equal. -/
theorem root_group_exact_match (groupSize : ℕ) (item : Item) (n : ℤ)
    (hgs : 1 < groupSize) (hmark : item.marker.isSome = true)
    (hext : _extract_nprocs_for_single_test item = .ok n) (hn : 1 < n) :
    (n = (groupSize : ℤ) →
       pytest_runtest_setup true groupSize false item = .ok .runInPlace)
    ∧ (n ≠ (groupSize : ℤ) →
       pytest_runtest_setup true groupSize false item =
         .error (.usageError mismatch_msg)) := by
  have h1 : groupSize ≠ 1 := by omega
  constructor
  · intro he
    simp [pytest_runtest_setup, hmark, h1, hext, he]
  · intro hne
    simp [pytest_runtest_setup, hmark, h1, hext, hne]

/-- Witness for C6: the spec's example — an outer group of size 5 running
a test requiring `nprocs = 3` is rejected; a group of size 3 runs it in
place. -/
theorem root_group_exact_match_witness :
    pytest_runtest_setup true 5 false
      ⟨some ⟨"parallel", [.int 3], []⟩, none, "test_a.py", "test_f"⟩ =
      .error (.usageError mismatch_msg)
    ∧ pytest_runtest_setup true 3 false
      ⟨some ⟨"parallel", [.int 3], []⟩, none, "test_a.py", "test_f"⟩ =
      .ok .runInPlace :=
  ⟨(root_group_exact_match 5
      ⟨some ⟨"parallel", [.int 3], []⟩, none, "test_a.py", "test_f"⟩ 3
      (by decide) rfl rfl (by decide)).2 (by decide),
   (root_group_exact_match 3
      ⟨some ⟨"parallel", [.int 3], []⟩, none, "test_a.py", "test_f"⟩ 3
      (by decide) rfl rfl (by decide)).1 (by decide)⟩

/-- C9: for a `SpawnSubgroup` decision with required `nprocs > 1` (state
`ROOT_SINGLE`), the constructed `mpiexec` command consists of one block of
`1` process and one block of `nprocs - 1` processes (summing to `nprocs`),
both blocks run the single resolved test identity
`fspath::name`, the child-marker environment flag is passed via the
global `-genv` option, and the reduced-verbosity arguments are exactly the
extra flags of the second block (the first block runs plain
`pytest_args`). -/
theorem spawn_command_spec (n : ℤ) (item : Item)
    (hmark : item.marker.isSome = true)
    (hext : _extract_nprocs_for_single_test item = .ok n) (hn : 1 < n) :
    pytest_runtest_setup true 1 false item =
      .ok (.spawn (spawn_cmd n item.fspath item.name))
    ∧ (∀ fspath nm : String,
        spawn_cmd n fspath nm =
          (["mpiexec", "-n", "1", "-genv", CHILD_PROCESS_FLAG, "1", "python",
            "-m", "pytest"] ++ pytest_args fspath nm)
          ++ [":"]
          ++ (["-n", toString (n - 1), "python", "-m", "pytest"]
              ++ quieter_pytest_args fspath nm))
    ∧ 1 + (n - 1) = n
    ∧ (∀ fspath nm : String,
        test_identity fspath nm ∈ pytest_args fspath nm
        ∧ test_identity fspath nm ∈ quieter_pytest_args fspath nm)
    ∧ (∀ fspath nm : String, quieter_pytest_args fspath nm =
        pytest_args fspath nm ++
          ["--tb=no", "--no-summary", "--no-header", "--disable-warnings",
           "--show-capture=no"]) := by
  have hne : ¬ n = 1 := by omega
  refine ⟨?_, ?_, by ring, ?_, fun _ _ => rfl⟩
  · simp [pytest_runtest_setup, hmark, _set_parallel_callback, hext, hne]
  · intro fspath nm
    simp [spawn_cmd]
  · intro fspath nm
    exact ⟨by simp [pytest_args], by simp [quieter_pytest_args, pytest_args]⟩

/-- Witness for C9: a root single process spawning `nprocs = 3` gets the
command with blocks of 1 and 2 processes, and `1 + (3 - 1) = 3`. -/
theorem spawn_command_spec_witness :
    pytest_runtest_setup true 1 false
      ⟨some ⟨"parallel", [.int 3], []⟩, none, "tests/test_x.py", "test_y"⟩ =
      .ok (.spawn (spawn_cmd 3 "tests/test_x.py" "test_y"))
    ∧ (1 : ℤ) + (3 - 1) = 3 :=
  ⟨(spawn_command_spec 3
      ⟨some ⟨"parallel", [.int 3], []⟩, none, "tests/test_x.py", "test_y"⟩
      rfl rfl (by decide)).1,
   (spawn_command_spec 3
      ⟨some ⟨"parallel", [.int 3], []⟩, none, "tests/test_x.py", "test_y"⟩
      rfl rfl (by decide)).2.2.1⟩

end PytestMPI
